import Mathlib

/-!
Verification development for the `jp_scanner` Plex scanner
(`src/jp_scanner.py`).  The Python source is shallowly embedded: pure
functions become Lean functions on `String`/`List Char`/`Int`, Python
exceptions become `Except String`, and Python `None`-or-value variables
become `Option`.  Machine integers do not occur (Python ints are
unbounded), so `Int`/`Nat` are exact.
-/

namespace JpScanner

/-- Decidable equality for `Except`, used to evaluate concrete runs. -/
instance exceptDecEq {ε α : Type} [DecidableEq ε] [DecidableEq α] :
    DecidableEq (Except ε α) := fun x y =>
  match x, y with
  | .ok a, .ok b =>
    if h : a = b then isTrue (by rw [h]) else isFalse (fun he => by cases he; exact h rfl)
  | .error a, .error b =>
    if h : a = b then isTrue (by rw [h]) else isFalse (fun he => by cases he; exact h rfl)
  | .ok _, .error _ => isFalse (fun he => by cases he)
  | .error _, .ok _ => isFalse (fun he => by cases he)

/-! ## Python string primitives -/

/-- Python truthiness of an optional string: `None` and `""` are falsy. -/
def pyTruthy : Option String → Bool
  | none => false
  | some s => !s.isEmpty

/-- Python whitespace for `str.strip()`: space, tab, newline, CR, VT, FF. -/
def isPySpace (c : Char) : Bool :=
  c = ' ' || c = '\t' || c = '\n' || c = '\r' || c = '\x0b' || c = '\x0c'

/-- Strip characters satisfying `p` from both ends of a character list. -/
def stripWith (p : Char → Bool) (cs : List Char) : List Char :=
  ((cs.dropWhile p).reverse.dropWhile p).reverse

/-- Python `s.strip()` (whitespace on both ends). -/
def pyStrip (s : String) : String :=
  String.mk (stripWith isPySpace s.toList)

/-- Python `s.strip('-')`. -/
def pyStripDash (s : String) : String :=
  String.mk (stripWith (fun c => c = '-') s.toList)

/-- Lower-case a string character-wise.  `Char.toLower` only folds ASCII
`A`-`Z`; this models Python `str.lower()` on the ASCII range, which is the
range exercised by the scanner's date/episode tokens. -/
def pyLower (s : String) : String :=
  String.mk (s.toList.map Char.toLower)

/-- Value of a list of decimal digit characters (most significant first). -/
def digitsVal (cs : List Char) : Nat :=
  cs.foldl (fun a c => a * 10 + (c.toNat - 48)) 0

/-- Python `int(s)` on a string: strip whitespace, optional sign, at least
one decimal digit, nothing else; otherwise raises `ValueError`. -/
def pyIntOfString (s : String) : Except String Int :=
  let cs := stripWith isPySpace s.toList
  let signDigits : Int × List Char :=
    match cs with
    | [] => (1, [])
    | c :: rest =>
      if c = '-' then (-1, rest) else if c = '+' then (1, rest) else (1, c :: rest)
  if signDigits.2 ≠ [] ∧ signDigits.2.all Char.isDigit then
    .ok (signDigits.1 * (digitsVal signDigits.2 : Int))
  else
    .error ("invalid literal for int: " ++ s)

/-- Decimal printing of a natural number, fuel-driven so that it is
structural recursion (and hence reduces inside the kernel).  `natDigits`
supplies fuel `n + 1`, which always suffices. -/
def natDigitsAux : Nat → Nat → List Char
  | 0, _ => []
  | fuel + 1, n =>
    if n < 10 then [Char.ofNat (48 + n)]
    else natDigitsAux fuel (n / 10) ++ [Char.ofNat (48 + n % 10)]

/-- The digits of `str(n)` for a natural number. -/
def natDigits (n : Nat) : List Char := natDigitsAux (n + 1) n

/-- `str(n)` for a Python int (only non-negative values occur in the paths
we model, but the sign is kept for faithfulness). -/
def pyIntStr (n : Int) : String :=
  if n < 0 then String.mk ('-' :: natDigits n.natAbs) else String.mk (natDigits n.natAbs)

/-- Python format spec `{:>04}` applied to a string: right-align in a
field of width 4, filling with `'0'`. -/
def padLeft0 (w : Nat) (s : String) : String :=
  if s.length < w then String.mk (List.replicate (w - s.length) '0') ++ s else s

/-- A Python value that is either a string or an int — the two shapes the
scanner's `season`/`episode` variables take. -/
inductive PyVal where
  | vstr : String → PyVal
  | vint : Int → PyVal
deriving DecidableEq, Repr

/-- Python `str(v)`. -/
def PyVal.pyStr : PyVal → String
  | .vstr s => s
  | .vint n => pyIntStr n

/-- Python truthiness of a `PyVal` (`""` and `0` are falsy). -/
def PyVal.truthy : PyVal → Bool
  | .vstr s => !s.isEmpty
  | .vint n => n ≠ 0

/-- Python truthiness of a `None`-or-value variable. -/
def pyTruthyV : Option PyVal → Bool
  | none => false
  | some v => v.truthy

/-- Python `str(x)` where `x` may be `None` (`str(None) = "None"`). -/
def pyStrOfOpt : Option PyVal → String
  | none => "None"
  | some v => v.pyStr

/-- Python `int(x)` on a string-or-int value. -/
def PyVal.toIntE : PyVal → Except String Int
  | .vstr s => pyIntOfString s
  | .vint n => .ok n

/-- Python `int(x)` where `x` may be `None` (raises `TypeError` on `None`). -/
def pyOptValToIntE : Option PyVal → Except String Int
  | none => .error "int() argument is None"
  | some v => v.toIntE

/-! ## SHA-256 (the `hashlib.sha256` used by `create_unique_episode_id`)

A direct FIPS 180-4 implementation over `Nat`, with 32-bit words kept
reduced `% 2^32`.  Inputs are byte lists (values `< 256`). -/

/-- Reduce to a 32-bit word. -/
def w32 (x : Nat) : Nat := x % 4294967296

/-- 32-bit right rotation. -/
def rotr32 (n x : Nat) : Nat := w32 ((x >>> n) ||| (x <<< (32 - n)))

/-- SHA-256 round constants (FIPS 180-4 §4.2.2, written in decimal). -/
def shaK : List Nat :=
  [1116352408, 1899447441, 3049323471, 3921009573, 961987163,
   1508970993, 2453635748, 2870763221, 3624381080, 310598401,
   607225278, 1426881987, 1925078388, 2162078206, 2614888103,
   3248222580, 3835390401, 4022224774, 264347078, 604807628,
   770255983, 1249150122, 1555081692, 1996064986, 2554220882,
   2821834349, 2952996808, 3210313671, 3336571891, 3584528711,
   113926993, 338241895, 666307205, 773529912, 1294757372,
   1396182291, 1695183700, 1986661051, 2177026350, 2456956037,
   2730485921, 2820302411, 3259730800, 3345764771, 3516065817,
   3600352804, 4094571909, 275423344, 430227734, 506948616,
   659060556, 883997877, 958139571, 1322822218, 1537002063,
   1747873779, 1955562222, 2024104815, 2227730452, 2361852424,
   2428436474, 2756734187, 3204031479, 3329325298]

/-- SHA-256 initial hash state (FIPS 180-4 §5.3.3, written in decimal). -/
def shaH0 : List Nat :=
  [1779033703, 3144134277, 1013904242, 2773480762,
   1359893119, 2600822924, 528734635, 1541459225]

/-- Big-endian bytes (given count) of a natural number. -/
def beBytes (count n : Nat) : List Nat :=
  (List.range count).map (fun i => (n >>> (8 * (count - 1 - i))) % 256)

/-- SHA-256 message padding: `0x80`, zeros to 56 mod 64, then the 64-bit
big-endian bit length. -/
def shaPad (msg : List Nat) : List Nat :=
  let L := msg.length
  let zeros := (64 + 56 - (L + 1) % 64) % 64
  msg ++ 0x80 :: List.replicate zeros 0 ++ beBytes 8 (8 * L)

/-- Split a list into chunks of `n` elements, fuel-driven structural
recursion (fuel `l.length` always suffices for `n > 0`). -/
def chunksAux (n : Nat) : Nat → List α → List (List α)
  | _, [] => []
  | 0, _ => []
  | fuel + 1, l => l.take n :: chunksAux n fuel (l.drop n)

/-- Split a list into chunks of `n` elements (`n > 0`; the padded message
length is an exact multiple of 64). -/
def chunks (n : Nat) (l : List α) : List (List α) :=
  if n = 0 then [] else chunksAux n l.length l

/-- Pack 4 big-endian bytes into a 32-bit word, 16 words per block. -/
def blockWords (block : List Nat) : Array Nat :=
  ((List.range 16).map (fun i =>
    (block.getD (4 * i) 0) * 16777216 + (block.getD (4 * i + 1) 0) * 65536 +
    (block.getD (4 * i + 2) 0) * 256 + block.getD (4 * i + 3) 0)).toArray

/-- Extend the 16 message words to the 64-entry schedule. -/
def extendSchedule (w : Array Nat) : Array Nat :=
  (List.range 48).foldl (fun w _ =>
    let i := w.size
    let x := w.getD (i - 15) 0
    let y := w.getD (i - 2) 0
    let s0 := (rotr32 7 x) ^^^ (rotr32 18 x) ^^^ (x >>> 3)
    let s1 := (rotr32 17 y) ^^^ (rotr32 19 y) ^^^ (y >>> 10)
    w.push (w32 (w.getD (i - 16) 0 + s0 + w.getD (i - 7) 0 + s1))) w

/-- One SHA-256 compression round. -/
def shaRound (st : List Nat) (kw : Nat) : List Nat :=
  let a := st.getD 0 0
  let b := st.getD 1 0
  let c := st.getD 2 0
  let d := st.getD 3 0
  let e := st.getD 4 0
  let f := st.getD 5 0
  let g := st.getD 6 0
  let h := st.getD 7 0
  let S1 := (rotr32 6 e) ^^^ (rotr32 11 e) ^^^ (rotr32 25 e)
  let ch := (e &&& f) ^^^ ((4294967295 ^^^ e) &&& g)
  let t1 := w32 (h + S1 + ch + kw)
  let S0 := (rotr32 2 a) ^^^ (rotr32 13 a) ^^^ (rotr32 22 a)
  let mj := (a &&& b) ^^^ (a &&& c) ^^^ (b &&& c)
  let t2 := w32 (S0 + mj)
  [w32 (t1 + t2), a, b, c, w32 (d + t1), e, f, g]

/-- Compress one 64-byte block into the running hash state. -/
def shaCompress (hst : List Nat) (block : List Nat) : List Nat :=
  let w := extendSchedule (blockWords block)
  let kws := (List.range 64).map (fun i => w32 (shaK.getD i 0 + w.getD i 0))
  let st := kws.foldl shaRound hst
  (List.range 8).map (fun i => w32 (hst.getD i 0 + st.getD i 0))

/-- SHA-256 digest (32 bytes) of a byte-list message. -/
def sha256Bytes (msg : List Nat) : List Nat :=
  ((chunks 64 (shaPad msg)).foldl shaCompress shaH0).foldr
    (fun word acc => beBytes 4 word ++ acc) []

/-- Lowercase hex digit for a value `< 16`. -/
def hexDigit (n : Nat) : Char :=
  if n < 10 then Char.ofNat (48 + n) else Char.ofNat (87 + n)

/-- Lowercase hex string of a byte list (`hashlib.sha256(..).hexdigest()`). -/
def hexOfBytes (bs : List Nat) : List Char :=
  bs.foldr (fun b acc => hexDigit (b / 16) :: hexDigit (b % 16) :: acc) []

/-- UTF-8 encoding of one scalar value (Python `unicode.encode('utf-8')`). -/
def utf8EncodeChar (c : Char) : List Nat :=
  let n := c.toNat
  if n < 0x80 then [n]
  else if n < 0x800 then
    [0xC0 ||| (n >>> 6), 0x80 ||| (n &&& 0x3F)]
  else if n < 0x10000 then
    [0xE0 ||| (n >>> 12), 0x80 ||| ((n >>> 6) &&& 0x3F), 0x80 ||| (n &&& 0x3F)]
  else
    [0xF0 ||| (n >>> 18), 0x80 ||| ((n >>> 12) &&& 0x3F),
     0x80 ||| ((n >>> 6) &&& 0x3F), 0x80 ||| (n &&& 0x3F)]

/-- UTF-8 bytes of a string. -/
def utf8Encode (s : String) : List Nat :=
  s.toList.flatMap utf8EncodeChar

/-- Hex digest characters of the SHA-256 of a string. -/
def sha256HexOfString (s : String) : List Char :=
  hexOfBytes (sha256Bytes (utf8Encode s))

/-! ## Path handling (`os.path.basename` / `os.path.splitext`) -/

/-- `os.path.basename`: the part after the last `'/'`. -/
def pathBasename (p : String) : String :=
  String.mk ((p.toList.reverse.takeWhile (fun c => c ≠ '/')).reverse)

/-- Index of the last occurrence of `c`, if any. -/
def rfindIdx (c : Char) (cs : List Char) : Option Nat :=
  match cs.reverse.findIdx? (fun x => x = c) with
  | none => none
  | some i => some (cs.length - 1 - i)

/-- The stem of `os.path.splitext(name)[0]` for a bare file name: cut at
the last `'.'` provided some earlier character of the name is not a dot
(so `".bashrc"` has no extension), as CPython's `_splitext` does. -/
def splitextStem (name : String) : String :=
  let cs := name.toList
  match rfindIdx '.' cs with
  | none => name
  | some d => if (cs.take d).any (fun c => c ≠ '.') then String.mk (cs.take d) else name

/-! ## `create_unique_episode_id` (src/jp_scanner.py lines 206-231) -/

/-- `create_unique_episode_id(file_path)`: lower-cased extension-free
basename, SHA-256 hex digest, `''.join(str(ord(c)) for c in hex)`,
first 4 characters right-padded with `'9'`, converted with `int(...)`.
The Python body sits in a `try`/`except` that returns the sentinel
`1000`; in this pure embedding the only fallible step is the final
`int(...)`, so the catch is modelled around it. -/
def create_unique_episode_id (file_path : String) : Int :=
  let basename := pyLower (splitextStem (pathBasename file_path))
  let hash_hex := sha256HexOfString basename
  let ascii_values := (hash_hex.map (fun c => natDigits c.toNat)).flatten
  let truncated := ascii_values.take 4
  let padded :=
    if truncated.length < 4 then truncated ++ List.replicate (4 - truncated.length) '9'
    else truncated
  match pyIntOfString (String.mk padded) with
  | .ok n => n
  | .error _ => 1000

/-- Modelled from the spec's words (§4.2 `uniqueId(filenameStem)`):
lower-case the stem, hash it with SHA-256, convert every hex digit to its
numeric character code, concatenate these codes into one decimal digit
string, and take the integer given by its first 4 digits, right-padded
with `'9'` when the digit string is shorter than 4. -/
def uniqueId_spec (stem : String) : Int :=
  let digest := sha256HexOfString (pyLower stem)
  let digitString := digest.foldr (fun c acc => natDigits c.toNat ++ acc) []
  let four := digitString.take 4
  let padded := four ++ List.replicate (4 - four.length) '9'
  (digitsVal padded : Int)

/-! ## Title cleanup (`clean_title`, src/jp_scanner.py lines 241-254) -/

/-- Case-insensitive prefix test (ASCII folding, as in `re.IGNORECASE`
over the scanner's inputs). -/
def ciStartsWith : List Char → List Char → Bool
  | [], _ => true
  | _ :: _, [] => false
  | p :: ps, c :: cs => (Char.toLower p = Char.toLower c) && ciStartsWith ps cs

/-- Python `pat.lower() in s.lower()`. -/
def ciContains (pat cs : List Char) : Bool :=
  (List.range (cs.length + 1)).any (fun i => ciStartsWith pat (cs.drop i))

/-- `re.sub(re.escape(pat), '', s, flags=re.IGNORECASE)`: delete
non-overlapping case-insensitive occurrences of the literal `pat`,
scanning left to right.  Fuel-driven structural recursion; fuel
`cs.length` always suffices. -/
def removeOccAux (pat : List Char) : Nat → List Char → List Char
  | _, [] => []
  | 0, cs => cs
  | fuel + 1, c :: rest =>
    if pat ≠ [] ∧ ciStartsWith pat (c :: rest) then
      removeOccAux pat fuel ((c :: rest).drop pat.length)
    else c :: removeOccAux pat fuel rest

/-- Case-insensitive removal of all occurrences of `show_name`. -/
def removeShowOcc (title show_name : String) : String :=
  String.mk (removeOccAux show_name.toList title.toList.length title.toList)

/-- Position (index ≥ 1 counted by the accumulator) of the next `']'`,
aborting at a newline, for the lazy body of `\[.+?\]`. -/
def findCloser : List Char → Nat → Option Nat
  | [], _ => none
  | c :: rest, k =>
    if c = ']' then some k
    else if c = '\n' then none
    else findCloser rest (k + 1)

/-- Given the characters after a `'['`, the index of the closing `']'` of
the lazy match `\[.+?\]` (at least one non-newline content character). -/
def bracketCloser : List Char → Option Nat
  | [] => none
  | c0 :: rest => if c0 = '\n' then none else findCloser rest 1

/-- `re.sub(r'\[.+?\]', ' ', s)`: each lazily-matched bracket group is
replaced by a single space.  Fuel-driven; fuel `cs.length` suffices. -/
def removeBracketsAux : Nat → List Char → List Char
  | _, [] => []
  | 0, cs => cs
  | fuel + 1, c :: rest =>
    if c = '[' then
      match bracketCloser rest with
      | some j => ' ' :: removeBracketsAux fuel (rest.drop (j + 1))
      | none => c :: removeBracketsAux fuel rest
    else c :: removeBracketsAux fuel rest

/-- Replace every `\[.+?\]` group of `s` by a space. -/
def removeBrackets (s : String) : String :=
  String.mk (removeBracketsAux s.toList.length s.toList)

/-- `clean_title(title, show_name)` (lines 241-254): falsy titles are
returned unchanged; otherwise the show name is removed (case-insensitive,
only when actually contained), bracket groups are replaced, and the
result is `strip().strip('-').strip()`-ed. -/
def clean_title (title : Option String) (show_name : Option String) : Option String :=
  match title with
  | none => none
  | some t =>
    if t.isEmpty then some t
    else
      let t1 :=
        match show_name with
        | some n => if !n.isEmpty && ciContains n.toList t.toList then removeShowOcc t n else t
        | none => t
      some (pyStrip (pyStripDash (pyStrip (removeBrackets t1))))

/-- Modelled from the spec's words (§4.4 step 6): strip the show name
from the title (case-insensitive substring removal) if present, then
remove all bracketed `[...]` groups (each leaves a single space in its
place), then trim surrounding hyphens/whitespace. -/
def cleanTitle_spec (t n : String) : String :=
  let withoutShow := if !n.isEmpty && ciContains n.toList t.toList then removeShowOcc t n else t
  let withoutBrackets := removeBrackets withoutShow
  pyStrip (pyStripDash (pyStrip withoutBrackets))

/-! ## Date helpers (`normalize_year`, `format_date_string`) -/

/-- `normalize_year` (lines 234-238): prefix `"20"` to 2-character years. -/
def normalize_year : Option String → Option String
  | none => none
  | some s => if !s.isEmpty && s.length == 2 then some ("20" ++ s) else some s

/-- `format_date_string` (lines 257-261): `"{y}-{m}-{d}"` when all three
are truthy, else `None`. -/
def format_date_string (year month day : Option String) : Option String :=
  if pyTruthy year && pyTruthy month && pyTruthy day then
    some ((year.getD "") ++ "-" ++ (month.getD "") ++ "-" ++ (day.getD ""))
  else none

/-! ## NFO sidecar reading (`extract_nfo_metadata`, lines 373-428) -/

/-- `extract_nfo_metadata(file_path)`.  Input: the `.nfo` sidecar state —
`none` when no `<stem>.nfo` file exists, `some content` when it does.
When no sidecar exists the function returns `{}` (line 378).  When one
exists, the load at line 385 is `open(json_path)` where `json_path` is an
undefined name (the real variable is `nfo_path`): the `NameError` is
caught by the `except Exception` at line 387, which logs and returns
`{}`.  Everything from line 391 on (XML repair, parsing, field
extraction) is therefore unreachable, and the function returns the empty
field map on every input. -/
def extract_nfo_metadata (nfo : Option String) : List (String × String) :=
  match nfo with
  | none => []
  | some _ => []

/-- The suffix just after the first occurrence of `pat` (fuel-driven). -/
def dropToSeq (pat : List Char) : Nat → List Char → Option (List Char)
  | _, [] => none
  | 0, _ => none
  | fuel + 1, c :: rest =>
    if (c :: rest).take pat.length = pat then some ((c :: rest).drop pat.length)
    else dropToSeq pat fuel rest

/-- The prefix strictly before the first occurrence of `pat` (fuel-driven). -/
def takeToSeq (pat : List Char) : Nat → List Char → Option (List Char)
  | _, [] => none
  | 0, _ => none
  | fuel + 1, c :: rest =>
    if (c :: rest).take pat.length = pat then some []
    else
      match takeToSeq pat fuel rest with
      | some body => some (c :: body)
      | none => none

/-- Modelled from the spec (§4.3 XML reader): the stripped text content
of the first `<field>...</field>` element, omitted when absent or empty —
what the reader is specified to report for a recognized field of a
well-formed simple document.  Used only to exhibit that a concrete
sidecar document supplies a non-empty field value. -/
def nfoFieldText (content field : String) : Option String :=
  let cs := content.toList
  let opener := '<' :: (field.toList ++ ['>'])
  let closer := '<' :: '/' :: (field.toList ++ ['>'])
  match dropToSeq opener cs.length cs with
  | none => none
  | some afterOpen =>
    match takeToSeq closer afterOpen.length afterOpen with
    | none => none
    | some body =>
      let v := pyStrip (String.mk body)
      if v.isEmpty then none else some v

/-! ## Match resolution (`process_regex_match`, lines 435-506) -/

/-- The named capture groups of a main-pattern match (`match.groupdict()`);
a group that did not participate is `none`. -/
structure MatchGroups where
  series : Option String := none
  year : Option String := none
  month : Option String := none
  day : Option String := none
  episode : Option String := none
  season : Option String := none
  title : Option String := none
  epNumber : Option String := none
deriving DecidableEq, Repr

/-- The file-system context behind a `file_path` argument: the path
itself and the adjacent `.nfo` sidecar (`none` when the sidecar file does
not exist, `some content` when it does). -/
structure FileCtx where
  path : String
  nfo : Option String
deriving DecidableEq, Repr

/-- The record dict returned by `process_regex_match` (line 506). -/
structure EpisodeData where
  season : Option PyVal
  episode : Option PyVal
  title : Option String
  year : Option String
  month : Option String
  day : Option String
  released_date : Option String
deriving DecidableEq, Repr

/-- Python truthiness of the optional `file_path` argument. -/
def fileTruthy : Option FileCtx → Bool
  | none => false
  | some fc => !fc.path.isEmpty

/-- `DEFAULT_EPISODE_PREFIX = '1'` (line 66). -/
def DEFAULT_EPISODE_LEAD : String := "1"

/-- Season default (lines 461-462): `if not season: season =
"{:>04}".format(year) if year else 1`. -/
def defaultSeason (season0 : Option PyVal) (year : Option String) : Option PyVal :=
  if !pyTruthyV season0 then
    some (if pyTruthy year then PyVal.vstr (padLeft0 4 (year.getD "")) else PyVal.vint 1)
  else season0

/-- Episode default (lines 465-466): `if not episode and year and month
and day: episode = int(DEFAULT_EPISODE_PREFIX + month + day)`. -/
def defaultEpisode (groups : MatchGroups) (year : Option String) :
    Except String (Option PyVal) :=
  let episode0 : Option PyVal := groups.episode.map .vstr
  if !pyTruthyV episode0 && pyTruthy year && pyTruthy groups.month && pyTruthy groups.day then do
    let n ← pyIntOfString (DEFAULT_EPISODE_LEAD ++ groups.month.getD "" ++ groups.day.getD "")
    pure (some (PyVal.vint n))
  else pure episode0

/-- Title cleanup, date fallback and decoration (lines 469-484). -/
def resolveTitle (groups : MatchGroups) (show_name : Option String)
    (release_date : Option String) : Option String :=
  let title := clean_title groups.title show_name
  let title := if !pyTruthy title || title == groups.series then release_date else title
  if pyTruthy title then
    let t := title.getD ""
    let t :=
      if pyTruthy groups.epNumber then (groups.epNumber.getD "") ++ " - " ++ t
      else if pyTruthy title && pyTruthy release_date && release_date ≠ title then
        let short_date := String.mk (((release_date.getD "").toList.filter (fun c => c ≠ '-')).drop 2)
        short_date ++ " ~ " ++ t
      else t
    some (pyStrip t)
  else title

/-- NFO override pass (lines 487-495).  `locals()[field] = ...` does not
rebind the Python locals, so the loop only evaluates its right-hand side
(whose `int(...)` can raise) and records whether any truthy sidecar field
was seen; the resolved values themselves are untouched. -/
def nfoOverridePass (nfo_metadata : List (String × String)) : Except String Bool :=
  ["season", "episode", "title", "year"].foldlM (fun acc field => do
    match nfo_metadata.lookup field with
    | some v =>
      if !v.isEmpty then
        if field = "season" ∨ field = "episode" ∨ field = "year" then do
          let _ ← pyIntOfString v
          pure true
        else pure true
      else pure acc
    | none => pure acc) false

/-- Disambiguation widening (lines 502-504): append the 4-digit unique id
to a short episode number of a date-identified record with a real file
path and no sidecar override. -/
def widenEpisode (fileCtx : Option FileCtx) (release_date : Option String)
    (nfo_override : Bool) (episode : Option PyVal) : Except String (Option PyVal) :=
  if fileTruthy fileCtx && pyTruthy release_date
      && decide ((pyStrOfOpt episode).length < 8) && !nfo_override then do
    let uid := create_unique_episode_id ((fileCtx.map FileCtx.path).getD "")
    let n ← pyIntOfString (pyStrOfOpt episode ++ padLeft0 4 (pyIntStr uid))
    pure (some (PyVal.vint n))
  else pure episode

/-- `process_regex_match(match, show_name, file_path)` (lines 435-506).
Python exceptions (`int(...)` failures) are the `Except.error` branch;
`Except.ok none` is the `return None` of the validation step.  The NFO
field map is always empty (see `extract_nfo_metadata`), and the override
pass never changes the resolved fields (see `nfoOverridePass`) — both
slips of the source are embedded faithfully. -/
def process_regex_match (groups : MatchGroups) (show_name : Option String)
    (fileCtx : Option FileCtx) : Except String (Option EpisodeData) := do
  let nfo_metadata :=
    match fileCtx with
    | some fc => if !fc.path.isEmpty then extract_nfo_metadata fc.nfo else []
    | none => []
  let year := normalize_year groups.year
  let release_date := format_date_string year groups.month groups.day
  let season := defaultSeason (groups.season.map .vstr) year
  let episode ← defaultEpisode groups year
  let title := resolveTitle groups show_name release_date
  let nfo_override ← nfoOverridePass nfo_metadata
  -- validation (lines 498-499)
  if season = none ∧ episode = none then
    return none
  let episode ← widenEpisode fileCtx release_date nfo_override episode
  return some { season := season, episode := episode, title := title, year := year,
                month := groups.month, day := groups.day, released_date := release_date }

/-! ## Multi-episode expansion (`process_multi_episode_file`, lines 624-664)

The single range pattern `(EP|E)(?P<start>\d{1,4})-(EP|E)?(?P<end>\d{1,4})`
(compiled case-insensitively, used with `.search`) is implemented
directly with Python-`re` semantics: leftmost match, ordered alternation
`EP` before `E`, greedy bounded digit runs. -/

/-- Case-insensitive test for the letter of the `E`/`EP` tag. -/
def tagE (c : Char) : Bool := Char.toLower c = 'e'

/-- Case-insensitive test for the `P` of the `EP` tag. -/
def tagP (c : Char) : Bool := Char.toLower c = 'p'

/-- `\d{1,4}` followed by `'-'`, greedy with backtracking: try 4 digits
first, down to 1; returns the digit value and the suffix after the dash. -/
def startDigitsAt (cs : List Char) : Nat → Option (Nat × List Char)
  | 0 => none
  | k + 1 =>
    let pre := cs.take (k + 1)
    if pre.length == k + 1 && pre.all Char.isDigit then
      match cs.drop (k + 1) with
      | '-' :: rest => some (digitsVal pre, rest)
      | _ => startDigitsAt cs k
    else startDigitsAt cs k

/-- Trailing `\d{1,4}` (greedy, nothing follows in the pattern). -/
def endDigits (cs : List Char) : Option Nat :=
  let ds := (cs.takeWhile Char.isDigit).take 4
  if ds.isEmpty then none else some (digitsVal ds)

/-- `(EP|E)?\d{1,4}`: try `EP` + digits, then `E` + digits, then digits. -/
def endPart (cs : List Char) : Option Nat :=
  let viaEP :=
    match cs with
    | c :: p :: rest => if tagE c && tagP p then endDigits rest else none
    | _ => none
  let viaE :=
    match cs with
    | c :: rest => if tagE c then endDigits rest else none
    | _ => none
  viaEP <|> viaE <|> endDigits cs

/-- The pattern body after the opening tag:
`(?P<start>\d{1,4})-(EP|E)?(?P<end>\d{1,4})`. -/
def rangeBody (cs : List Char) : Option (Nat × Nat) :=
  match startDigitsAt cs 4 with
  | none => none
  | some (s, rest) =>
    match endPart rest with
    | none => none
    | some e => some (s, e)

/-- Attempt the whole pattern at one position (`EP` preferred over `E`). -/
def multiEpMatchAt (cs : List Char) : Option (Nat × Nat) :=
  let viaEP :=
    match cs with
    | c :: p :: rest => if tagE c && tagP p then rangeBody rest else none
    | _ => none
  let viaE :=
    match cs with
    | c :: rest => if tagE c then rangeBody rest else none
    | _ => none
  viaEP <|> viaE

/-- Leftmost match of the range pattern (`re .search`). -/
def multiEpSearchAux : List Char → Option (Nat × Nat)
  | [] => none
  | c :: rest => multiEpMatchAt (c :: rest) <|> multiEpSearchAux rest

/-- `.search` of the multi-episode pattern over a filename. -/
def multiEpSearch (s : String) : Option (Nat × Nat) :=
  multiEpSearchAux s.toList

/-- A `Media.Episode` object as the scanner fills it (the `show=`
argument is named `showName`; `parts` holds the appended file path). -/
structure MediaEpisode where
  showName : String
  season : Int
  episode : Int
  title : Option String
  year : Option String
  released_at : Option String
  display_offset : Option Nat
  parts : List String
deriving DecidableEq, Repr

/-- `process_multi_episode_file(filename, episode_data, show_name,
file_path)` (lines 624-664).  On a range match it emits one
`Media.Episode` per `ep_num in range(start, end+1)` with
`display_offset = (ep_num-start)*100/total` (Python 2 floor division);
`int(episode_data['season'])` is evaluated inside the loop and can
raise.  Without a match it returns `[]`. -/
def process_multi_episode_file (filename : String) (episode_data : EpisodeData)
    (show_name : String) (file_path : String) : Except String (List MediaEpisode) :=
  match multiEpSearch filename with
  | none => .ok []
  | some (start_ep, end_ep) =>
    (List.range (end_ep + 1 - start_ep)).foldlM (fun acc i => do
      let total := end_ep + 1 - start_ep
      let sn ← pyOptValToIntE episode_data.season
      pure (acc ++ [{
        showName := show_name,
        season := sn,
        episode := (start_ep : Int) + i,
        title := episode_data.title,
        year := episode_data.year,
        released_at := if pyTruthy episode_data.released_date then episode_data.released_date else none,
        display_offset := some (i * 100 / total),
        parts := [file_path] }])) []

/-! ## Web-video path (`process_youtube_json_metadata`, lines 520-567) -/

/-- The fields of a `.info.json` sidecar that the function reads.
`epoch` is kept as an integer: the source passes it through `float(...)`
and `time.gmtime`, and for integral JSON epochs the two agree. -/
structure YtJson where
  upload_date : Option String := none
  epoch : Option Int := none
  title : Option String := none
deriving DecidableEq, Repr

/-- Python truthiness of the optional `epoch` number (`0` is falsy). -/
def intOptTruthy : Option Int → Bool
  | none => false
  | some n => n ≠ 0

/-- `YT_JSON_DATE_RX.match`: the anchored prefix match of
`(?P<year>\d{4})(?P<month>\d{2})(?P<day>\d{2})`. -/
def ytJsonDateMatch (s : String) : Option (String × String × String) :=
  let cs := s.toList
  let first8 := cs.take 8
  if first8.length == 8 && first8.all Char.isDigit then
    some (String.mk (cs.take 4), String.mk ((cs.drop 4).take 2), String.mk ((cs.drop 6).take 2))
  else none

/-- Proleptic-Gregorian civil date from days since the Unix epoch
(Hinnant's `civil_from_days`, with floor division). -/
def civilFromDays (z0 : Int) : Int × Int × Int :=
  let z := z0 + 719468
  let era := Int.fdiv z 146097
  let doe := z - era * 146097
  let yoe := Int.fdiv (doe - Int.fdiv doe 1460 + Int.fdiv doe 36524 - Int.fdiv doe 146096) 365
  let y := yoe + era * 400
  let doy := doe - (365 * yoe + Int.fdiv yoe 4 - Int.fdiv yoe 100)
  let mp := Int.fdiv (5 * doy + 2) 153
  let d := doy - Int.fdiv (153 * mp + 2) 5 + 1
  let m := mp + (if mp < 10 then 3 else -9)
  (y + (if m ≤ 2 then 1 else 0), m, d)

/-- `time.strftime("%Y%m%d", time.gmtime(t))`: the UTC calendar date of
the epoch second `t`, printed as year followed by zero-padded month and
day. -/
def epochYMDString (t : Int) : String :=
  let days := Int.fdiv t 86400
  let ymd := civilFromDays days
  pyIntStr ymd.1 ++ padLeft0 2 (pyIntStr ymd.2.1) ++ padLeft0 2 (pyIntStr ymd.2.2)

/-- One of the date separators `(\-|\.|_)`. -/
def isSepCh (c : Char) : Bool := c = '-' || c = '.' || c = '_'

/-- Consume an optional date separator. -/
def skipSep : List Char → List Char
  | [] => []
  | c :: rest => if isSepCh c then rest else c :: rest

/-- `YT_FILE_DATE` body at a fixed year length:
`\d{ylen}(\-|\.|_)?\d{2}(\-|\.|_)?\d{2}\s?`. -/
def ymdAt (cs : List Char) (ylen : Nat) : Option (String × String × String) :=
  let ys := cs.take ylen
  if ys.length == ylen && ys.all Char.isDigit then
    let r1 := skipSep (cs.drop ylen)
    let ms := r1.take 2
    if ms.length == 2 && ms.all Char.isDigit then
      let r2 := skipSep (r1.drop 2)
      let ds := r2.take 2
      if ds.length == 2 && ds.all Char.isDigit then
        some (String.mk ys, String.mk ms, String.mk ds)
      else none
    else none
  else none

/-- `YT_FILE_DATE.search`: the pattern is `^`-anchored, so this is a
prefix match with the year group greedy from 4 digits down to 2. -/
def ytFileDateSearch (s : String) : Option (String × String × String) :=
  ymdAt s.toList 4 <|> ymdAt s.toList 3 <|> ymdAt s.toList 2

/-- `process_youtube_json_metadata(json_path, file_path, filename)`
(lines 520-567) after a successful JSON load.  The date source is chosen
by key presence/truthiness: `upload_date` if truthy, else `epoch` if
truthy, else a scan of the filename; failure of the chosen source is
`None`.  The final `int(...)` concatenates digit strings only and cannot
raise. -/
def process_youtube_json_metadata (data : YtJson) (file_path : String)
    (filename : String) : Option EpisodeData :=
  let date_match :=
    if pyTruthy data.upload_date then ytJsonDateMatch (data.upload_date.getD "")
    else if intOptTruthy data.epoch then ytJsonDateMatch (epochYMDString (data.epoch.getD 0))
    else ytFileDateSearch (pathBasename filename)
  match date_match with
  | none => none
  | some (y0, m, d) =>
    let year := normalize_year (some y0)
    let season : Option PyVal :=
      some (if pyTruthy year then .vstr (padLeft0 4 (year.getD "")) else .vint 1)
    let release_date := format_date_string year (some m) (some d)
    let title := clean_title (some (data.title.getD "")) none
    let uid := create_unique_episode_id file_path
    let episode := digitsVal (DEFAULT_EPISODE_LEAD ++ padLeft0 2 m ++ padLeft0 2 d
      ++ padLeft0 4 (pyIntStr uid)).toList
    some { season := season, episode := some (.vint episode), title := title,
           year := year, month := some m, day := some d, released_date := release_date }

/-! ## Pattern registry (`compile_regex_patterns`, lines 268-298)

Pattern texts are carried verbatim (braces written with `\x7b`/`\x7d`
escapes); compilation itself is external to the model and abstracted as a
function `String → Option α` — the source's `try re.compile ... except`
appends on success and logs-and-skips on failure. -/

/-- `DATE_SEPARATORS` (line 57). -/
def DATE_SEPARATORS : String := "(\\-|\\.|_)?"

/-- `EP_PATTERNS` (line 60). -/
def EP_PATTERNS : String := "(\\#(\\d+)|ep(\\d+)|DVD[0-9.-]+|SP[0-9.-]+)"

/-- `MULTI_EPISODE_PATTERNS` (line 88). -/
def MULTI_EPISODE_PATTERNS : List String :=
  ["(EP|E)(?P<start>\\d\x7b1,4\x7d)-(EP|E)?(?P<end>\\d\x7b1,4\x7d)"]

/-- `DEFAULT_PARSING_PATTERNS` (lines 91-110), assembled exactly as the
source concatenates them. -/
def DEFAULT_PARSING_PATTERNS : List String :=
  [ "^(?P<year>\\d\x7b2,4\x7d)" ++ DATE_SEPARATORS ++ "(?P<month>\\d\x7b2\x7d)" ++ DATE_SEPARATORS
      ++ "(?P<day>\\d\x7b2\x7d)\\s-?(?P<series>.+?)(?P<epNumber>" ++ EP_PATTERNS ++ ") -?(?P<title>.+)",
    "^(?P<year>\\d\x7b2,4\x7d)" ++ DATE_SEPARATORS ++ "(?P<month>\\d\x7b2\x7d)" ++ DATE_SEPARATORS
      ++ "(?P<day>\\d\x7b2\x7d)\\s?-?(?P<title>.+)",
    "(?P<title>.+?)(?P<year>\\d\x7b2,4\x7d)" ++ DATE_SEPARATORS ++ "(?P<month>\\d\x7b2\x7d)"
      ++ DATE_SEPARATORS ++ "(?P<day>\\d\x7b2\x7d)$",
    "(?P<series>.+?)(?P<year>\\d\x7b2,4\x7d)" ++ DATE_SEPARATORS ++ "(?P<month>\\d\x7b2\x7d)"
      ++ DATE_SEPARATORS ++ "(?P<day>\\d\x7b2\x7d)\\s?-?(?P<title>.+)?",
    "(?P<series>.+?)\\s?[Ee][Pp](?P<episode>[0-9]\x7b1,4\x7d)\\s?(?P<title>.+)",
    "^[Ss](?P<season>[0-9]\x7b1,2\x7d)[Ee](?P<episode>[0-9]\x7b1,4\x7d)\\s?-?(?P<title>.+)",
    "(?P<title>.+?)\\s?[Ee][Pp](?P<episode>[0-9]\x7b1,4\x7d)$",
    "^(?P<series>.+?)[Ss](?P<season>[0-9]\x7b1,\x7d)[Ee](?P<episode>[0-9]\x7b1,\x7d)\\s?-?(?P<title>.+)",
    "(?P<series>.+?)\\s?[Ee][Pp](?P<episode>[0-9]\x7b1,4\x7d)\\s?-?(?P<title>.+)" ]

/-- One `try: re.compile ... except: log` loop (lines 274-296): append
each successfully compiled pattern, skip failures, never abort. -/
def compileLoop {α : Type} (compile : String → Option α)
    (pats : List String) (init : List α) : List α :=
  pats.foldl (fun acc p =>
    match compile p with
    | some r => acc ++ [r]
    | none => acc) init

/-- `compile_regex_patterns()` (lines 268-298): the multi-episode list,
and the main list built from the custom patterns (loaded from
`jp_scanner.json`) followed by the built-in defaults. -/
def compile_regex_patterns {α : Type} (compile : String → Option α)
    (custom_patterns : List String) : List α × List α :=
  let multi_episode_list := compileLoop compile MULTI_EPISODE_PATTERNS []
  let main_after_custom := compileLoop compile custom_patterns []
  let main_pattern_list := compileLoop compile DEFAULT_PARSING_PATTERNS main_after_custom
  (multi_episode_list, main_pattern_list)

/-! ## Scan orchestration (`scan_implementation` lines 725-751, `Scan`
lines 758-773)

The external collaborators (`VideoFiles.Scan`, `Utils.SplitPath`,
`VideoFiles.CleanName`, `Stack.Scan`) and the per-file resolver
(`scan_single_file`) are abstracted as `Except`-valued inputs; the
mutation of `media_list` is the returned record list. -/

/-- The abstracted environment of one `scan_implementation` call. -/
structure ScanHost (R E : Type) where
  videoScan : Except E (List R)
  pathParts : List String
  cleanName : String → Except E String
  resolveFile : String → String → Except E (List R)
  stackScan : Except E Unit

/-- The per-file loop (lines 742-748): each `scan_single_file` call is
wrapped in `try ... except` that logs and continues, so a failing file
contributes nothing and the loop always reaches the next file. -/
def scanFileLoop {R E : Type} (resolve : String → Except E (List R))
    (files : List String) (media : List R) : List R :=
  files.foldl (fun acc f =>
    match resolve f with
    | .ok rs => acc ++ rs
    | .error _ => acc) media

/-- The records a caught per-file resolution contributes. -/
def caughtList {R E : Type} : Except E (List R) → List R
  | .ok rs => rs
  | .error _ => []

/-- `scan_implementation(path, files, media_list, subdirs)` (lines
725-751): collaborator calls outside the per-file `try` may raise
(`Except.error`); an invalid path structure logs and returns early. -/
def scan_implementation {R E : Type} (host : ScanHost R E)
    (files : List String) : Except E (List R) := do
  let media ← host.videoScan
  match host.pathParts.head? with
  | none => return media
  | some p0 =>
    if p0.isEmpty then return media
    else do
      let show_name ← host.cleanName p0
      let media := scanFileLoop (host.resolveFile show_name) files media
      let _ ← host.stackScan
      return media

/-- Whether a Python call returned normally or raised to its caller. -/
inductive PyOutcome (E : Type) where
  | normal : PyOutcome E
  | raised : E → PyOutcome E
deriving DecidableEq

/-- `Scan(path, files, media_list, subdirs)` (lines 758-773): the whole
implementation runs inside `try ... except Exception` that logs — every
outcome of `scan_implementation`, raising or not, leaves `Scan`
returning normally. -/
def Scan {R E : Type} (host : ScanHost R E) (files : List String) : PyOutcome E :=
  match scan_implementation host files with
  | .ok _ => .normal
  | .error _ => .normal

/-! ## Concrete scenarios used by the claim witnesses -/

/-- The match groups of the filename stem `"2024-07-02 Foo"` under the
second default pattern (`YYYY-MM-DD title`). -/
def gDate : MatchGroups :=
  { year := some "2024", month := some "07", day := some "02", title := some "Foo" }

/-- The base record used by the C4 witness. -/
def edMulti : EpisodeData :=
  { season := some (.vint 1), episode := some (.vstr "01"), title := some "Parts",
    year := none, month := none, day := none, released_date := none }

/-- A `.info.json` whose `upload_date` is present but not `YYYYMMDD`
while its `epoch` is a perfectly usable date source. -/
def ytDataC6 : YtJson :=
  { upload_date := some "2024-07-02", epoch := some 1720000000, title := none }

/-- An `.nfo` sidecar specifying `episode = 5`. -/
def sidecarC1 : String := "<episodedetails><episode>5</episode></episodedetails>"

/-- File context of the C1 scenario: the file
`"/shows/x/2024-07-02 Foo.mp4"` with the adjacent sidecar above. -/
def fcC1 : FileCtx := { path := "/shows/x/2024-07-02 Foo.mp4", nfo := some sidecarC1 }

/-- A sidecar document with two non-empty recognized fields. -/
def sampleNfoC2 : String :=
  "<episodedetails><title>Fifth Episode</title><episode>5</episode></episodedetails>"

/-! ## Support lemmas -/

lemma digit_char_props {c : Char} (h : c.isDigit = true) :
    isPySpace c = false ∧ c ≠ '-' ∧ c ≠ '+' := by
  refine ⟨?_, ?_, ?_⟩
  · unfold isPySpace
    by_contra hs
    simp only [Bool.not_eq_false, Bool.or_eq_true, decide_eq_true_eq] at hs
    rcases hs with ((((h1 | h1) | h1) | h1) | h1) | h1 <;>
      (subst h1; exact absurd h (by decide))
  · intro he; subst he; exact absurd h (by decide)
  · intro he; subst he; exact absurd h (by decide)

lemma dropWhile_eq_self_of {p : Char → Bool} {cs : List Char}
    (h : ∀ c ∈ cs, p c = false) : cs.dropWhile p = cs := by
  cases cs with
  | nil => rfl
  | cons a l => simp [List.dropWhile_cons, h a (List.mem_cons_self a l)]

lemma stripWith_eq_self {p : Char → Bool} {cs : List Char}
    (h : ∀ c ∈ cs, p c = false) : stripWith p cs = cs := by
  unfold stripWith
  rw [dropWhile_eq_self_of h, dropWhile_eq_self_of (fun c hc => h c (List.mem_reverse.mp hc)),
    List.reverse_reverse]

lemma pyIntOfString_digits {cs : List Char} (hne : cs ≠ [])
    (hd : ∀ c ∈ cs, c.isDigit = true) :
    pyIntOfString (String.mk cs) = .ok ((digitsVal cs : Int)) := by
  unfold pyIntOfString
  have hstrip : stripWith isPySpace (String.mk cs).toList = cs :=
    stripWith_eq_self (fun c hc => (digit_char_props (hd c hc)).1)
  simp only [hstrip]
  cases cs with
  | nil => exact absurd rfl hne
  | cons a l =>
    have ha := digit_char_props (hd a (List.mem_cons_self a l))
    simp only [List.mem_cons, forall_eq_or_imp] at hd
    simp [ha.2.1, ha.2.2, hd.1]
    exact hd.2

lemma char_ofNat_digit_isDigit {k : Nat} (hk : k < 10) :
    (Char.ofNat (48 + k)).isDigit = true := by
  interval_cases k <;> decide

lemma natDigitsAux_digits : ∀ fuel n, ∀ c ∈ natDigitsAux fuel n, c.isDigit = true := by
  intro fuel
  induction fuel with
  | zero => intro n c hc; simp [natDigitsAux] at hc
  | succ f ih =>
    intro n c hc
    unfold natDigitsAux at hc
    by_cases h : n < 10
    · simp only [if_pos h, List.mem_singleton] at hc
      subst hc; exact char_ofNat_digit_isDigit h
    · simp only [if_neg h, List.mem_append, List.mem_singleton] at hc
      rcases hc with hc | hc
      · exact ih _ c hc
      · subst hc; exact char_ofNat_digit_isDigit (Nat.mod_lt _ (by norm_num))

lemma flatten_map_eq_foldr {α β : Type} (f : α → List β) (l : List α) :
    (l.map f).flatten = l.foldr (fun c acc => f c ++ acc) [] := by
  induction l with
  | nil => rfl
  | cons a t ih => simp [ih]

lemma compileLoop_eq_filterMap {α : Type} (compile : String → Option α) :
    ∀ (pats : List String) (init : List α),
      compileLoop compile pats init = init ++ pats.filterMap compile := by
  intro pats
  induction pats with
  | nil => intro init; simp [compileLoop]
  | cons p t ih =>
    intro init
    unfold compileLoop
    unfold compileLoop at ih
    cases h : compile p <;>
      simp [List.foldl_cons, h, ih, List.filterMap_cons]

lemma scanFileLoop_eq {R E : Type} (resolve : String → Except E (List R)) :
    ∀ (files : List String) (media : List R),
      scanFileLoop resolve files media =
        media ++ (files.map (fun f => caughtList (resolve f))).flatten := by
  intro files
  induction files with
  | nil => intro media; simp [scanFileLoop]
  | cons f t ih =>
    intro media
    unfold scanFileLoop
    unfold scanFileLoop at ih
    cases h : resolve f <;>
      simp [List.foldl_cons, h, ih, caughtList]

lemma foldlM_pure_append {α β E : Type} (step : List β → α → Except E (List β))
    (g : α → β) (l : List α)
    (hstep : ∀ acc a, step acc a = .ok (acc ++ [g a])) :
    ∀ init, l.foldlM step init = .ok (init ++ l.map g) := by
  induction l with
  | nil => intro init; simp [List.foldlM]; rfl
  | cons a t ih =>
    intro init
    rw [List.foldlM_cons, hstep init a]
    show List.foldlM step (init ++ [g a]) t = _
    rw [ih (init ++ [g a])]
    simp

/-! ## Support lemmas on the resolver stages -/

lemma defaultSeason_ne_none (season0 : Option PyVal) (year : Option String) :
    defaultSeason season0 year ≠ none := by
  unfold defaultSeason
  split
  · simp
  · next h =>
    cases season0 with
    | none => simp [pyTruthyV] at h
    | some v => simp

lemma string_isEmpty_false_of_toList {s : String} (h : s.toList ≠ []) : s.isEmpty = false := by
  rw [Bool.eq_false_iff]
  intro hE
  exact h (by rw [(String.isEmpty_iff s).mp hE]; rfl)

lemma pyTruthy_some_of_toList {s : String} (h : s.toList ≠ []) :
    pyTruthy (some s) = true := by
  show (!s.isEmpty) = true
  rw [string_isEmpty_false_of_toList h]
  rfl

lemma pyTruthy_normalize {y : String} (hy : y.toList ≠ []) :
    pyTruthy (normalize_year (some y)) = true := by
  show pyTruthy (if !y.isEmpty && y.length == 2 then some ("20" ++ y) else some y) = true
  split
  · exact pyTruthy_some_of_toList
      (fun h => List.noConfusion (show ('2' :: '0' :: y.toList : List Char) = [] from h))
  · exact pyTruthy_some_of_toList hy

lemma widenEpisode_noFile (rd : Option String) (ov : Bool) (epv : Option PyVal) :
    widenEpisode none rd ov epv = Except.ok epv := by
  unfold widenEpisode
  simp [fileTruthy]
  rfl

/-! ## Claim theorems -/

/-- C3: `create_unique_episode_id` lower-cases the extension-stripped
stem, hashes it with SHA-256, concatenates the numeric character codes of
the hex digits into a decimal string and returns the integer of its first
4 digits (right-padded with `'9'` when shorter) — exactly the spec's
`uniqueId` of the stem — and it depends on nothing but the filename stem,
so a second invocation on the same stem (under any path, any file
modification time) returns the same integer. -/
theorem C3_unique_episode_id :
    (∀ p, create_unique_episode_id p = uniqueId_spec (splitextStem (pathBasename p))) ∧
    (∀ p q, splitextStem (pathBasename p) = splitextStem (pathBasename q) →
      create_unique_episode_id p = create_unique_episode_id q) := by
  have main : ∀ p, create_unique_episode_id p = uniqueId_spec (splitextStem (pathBasename p)) := by
    intro p
    unfold create_unique_episode_id uniqueId_spec
    simp only [← flatten_map_eq_foldr]
    set ds := ((sha256HexOfString (pyLower (splitextStem (pathBasename p)))).map
      (fun c => natDigits c.toNat)).flatten with hds
    set four := ds.take 4 with hfour
    have hpad : (if four.length < 4 then four ++ List.replicate (4 - four.length) '9' else four)
        = four ++ List.replicate (4 - four.length) '9' := by
      split
      · rfl
      · next h =>
        rw [Nat.sub_eq_zero_of_le (Nat.le_of_not_lt h), List.replicate_zero, List.append_nil]
    rw [hpad]
    have hdig : ∀ c ∈ four ++ List.replicate (4 - four.length) '9', c.isDigit = true := by
      intro c hc
      rcases List.mem_append.mp hc with hc | hc
      · have hc2 : c ∈ ds := List.take_subset _ _ hc
        rw [hds] at hc2
        rcases List.mem_flatten.mp hc2 with ⟨l, hl, hcl⟩
        rcases List.mem_map.mp hl with ⟨x, _, rfl⟩
        exact natDigitsAux_digits _ _ c hcl
      · rw [List.eq_of_mem_replicate hc]; decide
    have hne : four ++ List.replicate (4 - four.length) '9' ≠ [] := by
      intro h
      have hlen := congrArg List.length h
      simp only [List.length_append, List.length_replicate, List.length_nil] at hlen
      omega
    rw [pyIntOfString_digits hne hdig]
  exact ⟨main, fun p q h => by rw [main p, main q, h]⟩

/-- Witness for C3: two paths differing in directory and extension share
a stem, and the unique id agrees on them. -/
theorem C3_unique_episode_id_witness :
    splitextStem (pathBasename "/a/2024-07-02 Foo.mp4")
      = splitextStem (pathBasename "/b/2024-07-02 Foo.mkv") ∧
    create_unique_episode_id "/a/2024-07-02 Foo.mp4"
      = create_unique_episode_id "/b/2024-07-02 Foo.mkv" :=
  ⟨by decide, C3_unique_episode_id.2 _ _ (by decide)⟩

/-- C9: the compiled main-pattern registry is exactly the successfully
compiled user-supplied patterns, in their given order, followed by the
successfully compiled built-in defaults; a pattern that fails to compile
is skipped without affecting the rest (registry construction is a total
function). -/
theorem C9_registry_order {α : Type} (compile : String → Option α)
    (custom_patterns : List String) :
    (compile_regex_patterns compile custom_patterns).2 =
      custom_patterns.filterMap compile ++ DEFAULT_PARSING_PATTERNS.filterMap compile := by
  unfold compile_regex_patterns
  simp only [compileLoop_eq_filterMap, List.nil_append]

/-- C8: `Scan` returns normally on every input (the top-level catch), and
the per-file loop of `scan_implementation` appends, in file order, the
records of exactly the files whose resolution succeeded — a file whose
resolution raises contributes nothing and the loop continues with the
remaining files. -/
theorem C8_scan_error_handling {R E : Type} (host : ScanHost R E) (files : List String) :
    Scan host files = .normal ∧
    (∀ (resolve : String → Except E (List R)) (media : List R),
      scanFileLoop resolve files media =
        media ++ (files.map (fun f => caughtList (resolve f))).flatten) := by
  constructor
  · unfold Scan
    cases scan_implementation host files <;> rfl
  · intro resolve media
    exact scanFileLoop_eq resolve files media

/-- C10: after the season-default step the season can never be `None`,
so the validation branch rejecting a match with both season and episode
`None` is unreachable: every `process_regex_match` call that does not
raise returns a record, never `None`. -/
theorem C10_validation_unreachable (g : MatchGroups) (sn : Option String)
    (fc : Option FileCtx) : process_regex_match g sn fc ≠ Except.ok none := by
  unfold process_regex_match
  simp only [bind, Except.bind]
  cases hep : defaultEpisode g (normalize_year g.year) with
  | error e => simp
  | ok epv =>
    cases hov : nfoOverridePass (match fc with
      | some fc => if !fc.path.isEmpty then extract_nfo_metadata fc.nfo else []
      | none => []) with
    | error e => simp
    | ok ov =>
      by_cases hcond : defaultSeason (Option.map PyVal.vstr g.season) (normalize_year g.year)
          = none ∧ epv = none
      · exact absurd hcond.1 (defaultSeason_ne_none _ _)
      · simp only [if_neg hcond]
        cases hw : widenEpisode fc (format_date_string (normalize_year g.year) g.month g.day)
            ov epv with
        | error e => simp [hw, pure, Except.pure]
        | ok ep2 => simp [hw, pure, Except.pure]

/-- The NFO field map computed at the top of `process_regex_match` is
empty for every file context (see `extract_nfo_metadata`). -/
lemma nfoMeta_nil (fc : Option FileCtx) :
    (match fc with
     | some fc => if !fc.path.isEmpty then extract_nfo_metadata fc.nfo else []
     | none => []) = ([] : List (String × String)) := by
  cases fc with
  | none => rfl
  | some f =>
    show (if !f.path.isEmpty then extract_nfo_metadata f.nfo else []) = []
    cases hn : f.nfo <;> simp [extract_nfo_metadata, hn]

/-- Every record returned by `process_regex_match` carries the season
produced by the season-default step (nothing later changes it). -/
lemma process_regex_match_season (g : MatchGroups) (sn : Option String)
    (fc : Option FileCtx) (rec : EpisodeData)
    (h : process_regex_match g sn fc = .ok (some rec)) :
    rec.season = defaultSeason (Option.map PyVal.vstr g.season) (normalize_year g.year) := by
  unfold process_regex_match at h
  simp only [bind, Except.bind, nfoMeta_nil,
    show nfoOverridePass [] = .ok false from rfl] at h
  cases hep : defaultEpisode g (normalize_year g.year) with
  | error e => rw [hep] at h; simp at h
  | ok epv =>
    rw [hep] at h
    by_cases hcond : defaultSeason (Option.map PyVal.vstr g.season) (normalize_year g.year)
        = none ∧ epv = none
    · exact absurd hcond.1 (defaultSeason_ne_none _ _)
    · simp only [if_neg hcond] at h
      cases hw : widenEpisode fc (format_date_string (normalize_year g.year) g.month g.day)
          false epv with
      | error e => rw [hw] at h; simp [pure, Except.pure] at h
      | ok ep2 =>
        rw [hw] at h
        simp only [pure, Except.pure, Except.ok.injEq, Option.some.injEq] at h
        rw [← h]

/-- C5: when the season group did not capture, the resolved record's
season is the zero-padded 4-digit normalized year if a year was captured
and the literal integer `1` otherwise (first conjunct, over any file
context); and when the episode group did not capture while year, month
and day were all captured, the resolved episode is `int("1"+month+day)`
(second and third conjuncts, stated over a call without a file path so
that the independent widening step does not apply). -/
theorem C5_defaults :
    (∀ (g : MatchGroups) (sn : Option String) (fc : Option FileCtx) (rec : EpisodeData),
      process_regex_match g sn fc = .ok (some rec) →
      g.season = none →
      rec.season = some (if pyTruthy (normalize_year g.year)
        then PyVal.vstr (padLeft0 4 ((normalize_year g.year).getD ""))
        else PyVal.vint 1)) ∧
    (∀ (g : MatchGroups) (sn : Option String) (y m d : String),
      g.season = none → g.episode = none →
      g.year = some y → y.toList ≠ [] →
      g.month = some m → g.day = some d →
      m.toList ≠ [] → d.toList ≠ [] →
      (∀ c ∈ m.toList, c.isDigit = true) → (∀ c ∈ d.toList, c.isDigit = true) →
      (process_regex_match g sn none).map (Option.map (fun r => (r.season, r.episode))) =
        .ok (some (some (PyVal.vstr (padLeft0 4 ((normalize_year (some y)).getD ""))),
          some (PyVal.vint (digitsVal (("1" ++ m ++ d : String)).toList))))) ∧
    (∀ (g : MatchGroups) (sn : Option String),
      g.season = none → g.year = none →
      (process_regex_match g sn none).map (Option.map (fun r => r.season)) =
        .ok (some (some (PyVal.vint 1)))) := by
  refine ⟨?_, ?_, ?_⟩
  · intro g sn fc rec h hs
    rw [process_regex_match_season g sn fc rec h, hs]
    rfl
  · intro g sn y m d hs he hy hyne hm hd hmne hdne hmdig hddig
    have hmd : ∀ c ∈ ("1" ++ m ++ d : String).toList, c.isDigit = true := by
      intro c hc
      rcases List.mem_cons.mp (show c ∈ '1' :: (m.toList ++ d.toList) from hc) with h1 | h1
      · subst h1; decide
      · rcases List.mem_append.mp h1 with h2 | h2
        · exact hmdig c h2
        · exact hddig c h2
    have hmdne : ("1" ++ m ++ d : String).toList ≠ [] :=
      fun h => List.noConfusion (show ('1' :: (m.toList ++ d.toList) : List Char) = [] from h)
    have hde : defaultEpisode g (normalize_year (some y)) =
        .ok (some (.vint (digitsVal (("1" ++ m ++ d : String)).toList))) := by
      unfold defaultEpisode
      rw [he, hm, hd]
      simp only [Option.map_none', show pyTruthyV (none : Option PyVal) = false from rfl,
        pyTruthy_normalize hyne, pyTruthy_some_of_toList hmne, pyTruthy_some_of_toList hdne,
        Bool.not_false, Bool.true_and, Bool.and_true, Bool.and_self, if_true, Option.getD_some]
      rw [show DEFAULT_EPISODE_LEAD = "1" from rfl]
      rw [show pyIntOfString ("1" ++ m ++ d) = .ok ((digitsVal (("1" ++ m ++ d : String)).toList : Int))
        from pyIntOfString_digits hmdne hmd]
      rfl
    have hseas : defaultSeason (Option.map PyVal.vstr (none : Option String))
        (normalize_year (some y)) =
        some (.vstr (padLeft0 4 ((normalize_year (some y)).getD ""))) := by
      unfold defaultSeason
      rw [show pyTruthyV (Option.map PyVal.vstr (none : Option String)) = false from rfl]
      rw [pyTruthy_normalize hyne]
      rfl
    unfold process_regex_match
    simp only [bind, Except.bind, hy, hs]
    rw [hde]
    rw [show nfoOverridePass [] = .ok false from rfl]
    rw [hseas]
    simp only [widenEpisode_noFile, Except.map, pure, Except.pure]
    simp
  · intro g sn hs hy
    unfold process_regex_match
    simp only [bind, Except.bind, hy, hs]
    rw [show normalize_year none = none from rfl]
    have hde : defaultEpisode g none = .ok (Option.map PyVal.vstr g.episode) := by
      unfold defaultEpisode
      simp only [show pyTruthy (none : Option String) = false from rfl,
        Bool.and_false, Bool.false_and, Bool.false_eq_true, if_false]
      rfl
    rw [hde]
    rw [show nfoOverridePass [] = .ok false from rfl]
    rw [show defaultSeason (Option.map PyVal.vstr (none : Option String)) none
      = some (PyVal.vint 1) from rfl]
    simp only [widenEpisode_noFile, Except.map, pure, Except.pure]
    simp

/-- Witness for C5: with season and episode groups uncaptured and date
groups `2024`/`07`/`02`, the record's season is `"2024"` and its episode
`10702`; with no year either, the season is the integer `1`. -/
theorem C5_defaults_witness :
    gDate.season = none ∧ gDate.episode = none ∧ gDate.year = some "2024" ∧
    gDate.month = some "07" ∧ gDate.day = some "02" ∧
    (process_regex_match gDate (some "MyShow") none).map
        (Option.map (fun r => (r.season, r.episode))) =
      .ok (some (some (PyVal.vstr "2024"), some (PyVal.vint 10702))) ∧
    (process_regex_match { title := some "Foo" } (some "MyShow") none).map
        (Option.map (fun r => r.season)) =
      .ok (some (some (PyVal.vint 1))) :=
  ⟨rfl, rfl, rfl, rfl, rfl,
    (C5_defaults.2.1 gDate (some "MyShow") "2024" "07" "02" rfl rfl rfl (by decide) rfl rfl
      (by decide) (by decide) (by decide) (by decide)).trans (by decide),
    C5_defaults.2.2 { title := some "Foo" } (some "MyShow") rfl rfl⟩

/-- C6 counterexample: with a present but non-`YYYYMMDD` `upload_date`
and a perfectly usable `epoch`, the code returns `None` even though
attempt two (the epoch) derives the date `2024-07-03` — the claim's
"returns None exactly when no date can be derived after all three
attempts" fails. -/
theorem C6_counterexample :
    process_youtube_json_metadata ytDataC6 "/v/a.mp4" "a" = none ∧
    ytJsonDateMatch (epochYMDString 1720000000) = some ("2024", "07", "03") := by
  constructor
  · decide
  · decide

/-- C6 (amended): the date source is selected by presence, not by
success — `upload_date` when truthy, else `epoch` when truthy, else the
filename scan — and the function returns `None` exactly when the selected
single source yields no date match. -/
theorem C6_date_source_selection (data : YtJson) (fp fn : String) :
    process_youtube_json_metadata data fp fn = none ↔
      (if pyTruthy data.upload_date then ytJsonDateMatch (data.upload_date.getD "")
       else if intOptTruthy data.epoch then ytJsonDateMatch (epochYMDString (data.epoch.getD 0))
       else ytFileDateSearch (pathBasename fn)) = none := by
  unfold process_youtube_json_metadata
  cases hX : (if pyTruthy data.upload_date then ytJsonDateMatch (data.upload_date.getD "")
      else if intOptTruthy data.epoch then ytJsonDateMatch (epochYMDString (data.epoch.getD 0))
      else ytFileDateSearch (pathBasename fn)) with
  | none => simp [hX]
  | some t =>
    rcases t with ⟨y0, m, d⟩
    simp [hX]

set_option maxRecDepth 40000 in
/-- C1 (code bug): although the sidecar supplies the non-empty episode
value `5`, the returned record keeps the filename-derived episode and
widens it with the 4-digit hash suffix (`10702` → `107029810`): the NFO
is never read (`open(json_path)` raises `NameError` at line 385) and the
`locals()[...]` override (lines 493-495) never rebinds the fields, so
no sidecar value ever replaces a filename-derived one. -/
theorem C1_sidecar_override_broken :
    process_regex_match gDate (some "MyShow") (some fcC1) =
      .ok (some { season := some (.vstr "2024"), episode := some (.vint 107029810),
                  title := some "240702 ~ Foo", year := some "2024", month := some "07",
                  day := some "02", released_date := some "2024-07-02" }) ∧
    nfoFieldText sidecarC1 "episode" = some "5" ∧
    ((107029810 : Int) = 5 → False) := by
  refine ⟨by decide, by decide, by decide⟩

/-- C2 (code bug): the sidecar document supplies the non-empty recognized
fields `title` and `episode`, yet `extract_nfo_metadata` returns the
empty map (the `open(json_path)` `NameError` of line 385 is caught and
`{}` returned); the no-sidecar and failure paths do return `{}`. -/
theorem C2_nfo_extraction_dead :
    extract_nfo_metadata (some sampleNfoC2) = [] ∧
    extract_nfo_metadata none = [] ∧
    nfoFieldText sampleNfoC2 "title" = some "Fifth Episode" ∧
    nfoFieldText sampleNfoC2 "episode" = some "5" := by
  refine ⟨rfl, rfl, by decide, by decide⟩

/-- C4: for a matched range `start..end` on a record without a release
date, `process_multi_episode_file` emits one record per integer of the
range in ascending episode order, with `displayOffset =
floor(index*100/count)` for the zero-based index and `count =
end-start+1`, each sharing season (coerced to an integer), title and
year with the base record. -/
theorem C4_multi_episode (filename : String) (episode_data : EpisodeData)
    (show_name file_path : String) (s e : Nat) (sn : Int)
    (h1 : multiEpSearch filename = some (s, e))
    (h2 : pyOptValToIntE episode_data.season = .ok sn)
    (h3 : episode_data.released_date = none) :
    process_multi_episode_file filename episode_data show_name file_path =
      .ok ((List.range (e + 1 - s)).map (fun i : Nat =>
        ({ showName := show_name, season := sn, episode := (s : Int) + (i : Int),
           title := episode_data.title, year := episode_data.year,
           released_at := none,
           display_offset := some (i * 100 / (e + 1 - s)),
           parts := [file_path] } : MediaEpisode))) := by
  unfold process_multi_episode_file
  rw [h1]
  refine (foldlM_pure_append _
    (fun i : Nat =>
      ({ showName := show_name, season := sn, episode := (s : Int) + (i : Int),
         title := episode_data.title, year := episode_data.year,
         released_at := none,
         display_offset := some (i * 100 / (e + 1 - s)),
         parts := [file_path] } : MediaEpisode))
    _ ?_ []).trans (by rw [List.nil_append])
  intro acc i
  simp [h2, h3, pyTruthy]

/-- Witness for C4: `E01-E05` expands to exactly 5 records with episodes
1..5 and display offsets 0, 20, 40, 60, 80. -/
theorem C4_multi_episode_witness :
    multiEpSearch "My Show E01-E05" = some (1, 5) ∧
    pyOptValToIntE edMulti.season = .ok 1 ∧
    edMulti.released_date = none ∧
    process_multi_episode_file "My Show E01-E05" edMulti "My Show" "/m/f.mp4" =
      .ok [
        { showName := "My Show", season := 1, episode := 1, title := some "Parts",
          year := none, released_at := none, display_offset := some 0, parts := ["/m/f.mp4"] },
        { showName := "My Show", season := 1, episode := 2, title := some "Parts",
          year := none, released_at := none, display_offset := some 20, parts := ["/m/f.mp4"] },
        { showName := "My Show", season := 1, episode := 3, title := some "Parts",
          year := none, released_at := none, display_offset := some 40, parts := ["/m/f.mp4"] },
        { showName := "My Show", season := 1, episode := 4, title := some "Parts",
          year := none, released_at := none, display_offset := some 60, parts := ["/m/f.mp4"] },
        { showName := "My Show", season := 1, episode := 5, title := some "Parts",
          year := none, released_at := none, display_offset := some 80, parts := ["/m/f.mp4"] } ] :=
  ⟨by decide, by decide, rfl,
    (C4_multi_episode _ _ _ _ 1 5 1 (by decide) (by decide) rfl).trans (by rfl)⟩

/-- C7: `clean_title` is exactly the spec's three-step pipeline — remove
the show name when present (case-insensitive), eliminate every bracketed
`[...]` group, trim surrounding hyphens and whitespace — and the spec's
concrete example evaluates to `"Part 2"`. -/
theorem C7_clean_title :
    (∀ t n, clean_title (some t) (some n) = some (cleanTitle_spec t n)) ∧
    clean_title (some "[SomeGroup] My Show - Part 2") (some "My Show") = some "Part 2" := by
  constructor
  · intro t n
    by_cases ht : t.isEmpty
    · have ht2 : t = "" := (String.isEmpty_iff t).mp ht
      subst ht2
      have h1 : clean_title (some "") (some n) = some "" := rfl
      have h2 : cleanTitle_spec "" n = "" := by
        unfold cleanTitle_spec
        split <;> rfl
      rw [h1, h2]
    · unfold clean_title cleanTitle_spec
      simp only [if_neg ht]
  · decide

end JpScanner
